import Mathlib

/-!
Verification development for the Avalanche Chainlink price service
(`src/api/python/price_service.py`, `chainlink_types.py`, `models.py`).

The Python service is shallowly embedded: strings are Lean `String`
(character-level operations model Python `str` methods on the ASCII
range used by the service), Python `int` is `Int`/`Nat`, and Python
`float` is modelled by exact rationals `ℚ` (the claims only evaluate
prices at points where IEEE doubles are exact).  External collaborators
— the chain transport (web3 `aggregate`/`call`), and the `datetime`
library — are passed in as explicit values/oracles, mirroring the
spec's description of the transport as an external boundary.
-/

/-! ## Python string primitives -/

/-- Python whitespace characters recognised by `str.strip()`
(restricted to the ASCII set). -/
def isPyWs (c : Char) : Bool :=
  c = ' ' || c = '\t' || c = '\n' || c = '\r' || c = '\x0b' || c = '\x0c'

/-- `str.strip()` on a character list. -/
def pyStrip (cs : List Char) : List Char :=
  ((cs.dropWhile isPyWs).reverse.dropWhile isPyWs).reverse

/-- `str.strip()` on a `String`. -/
def pyStripS (s : String) : String := ⟨pyStrip s.data⟩

/-- `str.replace(' / ', '')`: remove every (left-to-right,
non-overlapping) occurrence of the three-character separator `" / "`. -/
def removeSep : List Char → List Char
  | ' ' :: '/' :: ' ' :: rest => removeSep rest
  | c :: rest => c :: removeSep rest
  | [] => []

/-- `str.replace(' ', '')`: remove every space character. -/
def removeSpaces : List Char → List Char
  | [] => []
  | c :: rest => if c = ' ' then removeSpaces rest else c :: removeSpaces rest

/-- `str.upper()` (ASCII behaviour, which covers the service's data). -/
def pyUpperS (s : String) : String := ⟨s.data.map Char.toUpper⟩

/-- `str.lower()` (ASCII behaviour). -/
def pyLowerS (s : String) : String := ⟨s.data.map Char.toLower⟩

/-- The symbol/identifier normalisation used throughout
`price_service.py`: `x.replace(' / ', '').replace(' ', '').upper()`. -/
def normSym (s : String) : String :=
  ⟨(removeSpaces (removeSep s.data)).map Char.toUpper⟩

/-! ## Python numeric parsing (`int(...)`, `float(...)`)

Modelled on plain decimal literals with optional sign and surrounding
whitespace; exotic forms (underscore grouping, exponents, `inf`/`nan`)
do not occur in the metadata file format and are not modelled. -/

/-- Digits to the `Nat` they denote. -/
def natOfDigits (ds : List Char) : Nat :=
  ds.foldl (fun a c => a * 10 + (c.toNat - 48)) 0

/-- Python `int(s)` on decimal literals; `none` models `ValueError`. -/
def pyInt (s : String) : Option Int :=
  match pyStrip s.data with
  | '-' :: ds => if ds ≠ [] ∧ ds.all Char.isDigit then some (-(natOfDigits ds : Int)) else none
  | '+' :: ds => if ds ≠ [] ∧ ds.all Char.isDigit then some (natOfDigits ds : Int) else none
  | ds => if ds ≠ [] ∧ ds.all Char.isDigit then some (natOfDigits ds : Int) else none

/-- Unsigned decimal (with optional fractional part) to an exact `ℚ`. -/
def parseUnsignedDec (cs : List Char) : Option ℚ :=
  let ip := cs.takeWhile Char.isDigit
  match cs.drop ip.length with
  | [] => if ip ≠ [] then some (natOfDigits ip : ℚ) else none
  | '.' :: fp =>
      if fp.all Char.isDigit ∧ (ip ≠ [] ∨ fp ≠ []) then
        some ((natOfDigits ip : ℚ) + (natOfDigits fp : ℚ) / 10 ^ fp.length)
      else none
  | _ => none

/-- Python `float(s)` on decimal literals; `none` models `ValueError`. -/
def pyFloat (s : String) : Option ℚ :=
  match pyStrip s.data with
  | '-' :: cs => (parseUnsignedDec cs).map (fun q => -q)
  | '+' :: cs => parseUnsignedDec cs
  | cs => parseUnsignedDec cs

/-! ## Address validation (`chainlink_types.is_valid_address`) -/

/-- Membership in `'0123456789abcdefABCDEF'`. -/
def isHexChar (c : Char) : Bool :=
  ('0' ≤ c && c ≤ '9') || ('a' ≤ c && c ≤ 'f') || ('A' ≤ c && c ≤ 'F')

/-- `is_valid_address`: length 42, `0x` prefix, hex body. -/
def is_valid_address (s : String) : Bool :=
  s.data.length = 42 &&
  s.data.take 2 = ['0', 'x'] &&
  (s.data.drop 2).all isHexChar

/-! ## Data model (`models.py`, `chainlink_types.py`) -/

/-- `models.FeedMetadata` after all validators ran. -/
structure FeedMetadata where
  name : String
  symbol : String
  contractAddress : String
  proxyAddress : String
  decimals : Nat
  deviationThreshold : ℚ
  heartbeat : Nat
  assetClass : String
  productName : String
  baseAsset : String
  quoteAsset : String
deriving DecidableEq

/-- One CSV record as handed to `_validate_csv_row` (a missing or
empty field is the empty string: `raw_row.get(field)` is falsy). -/
structure CsvRow where
  name : String
  contract_address : String
  proxy_address : String
  decimals : String
  deviation_threshold : String
  heartbeat : String
  asset_class : String
  product_name : String
  base_asset : String
  quote_asset : String
deriving DecidableEq

/-- The `FeedMetadataDict` produced by `_validate_csv_row`. -/
structure ValidatedRow where
  name : String
  contract_address : String
  proxy_address : String
  decimals : Int
  deviation_threshold : ℚ
  heartbeat : Int
  asset_class : String
  product_name : String
  base_asset : String
  quote_asset : String
deriving DecidableEq

/-- `not raw_row.get(field)` for one of the ten required fields. -/
def hasMissingField (r : CsvRow) : Bool :=
  r.name = "" || r.contract_address = "" || r.proxy_address = "" ||
  r.decimals = "" || r.deviation_threshold = "" || r.heartbeat = "" ||
  r.asset_class = "" || r.product_name = "" || r.base_asset = "" ||
  r.quote_asset = ""

/-- `PriceService._validate_csv_row`: missing-field check, then typed
conversion of `decimals`/`heartbeat`/`deviation_threshold` and
`.strip()` of the remaining string fields.  `none` models the raised
`ValueError`. -/
def validateCsvRow (r : CsvRow) : Option ValidatedRow :=
  if hasMissingField r then none
  else
    match pyInt r.decimals, pyInt r.heartbeat, pyFloat r.deviation_threshold with
    | some dec, some hb, some dev =>
        some { name := pyStripS r.name
             , contract_address := pyStripS r.contract_address
             , proxy_address := pyStripS r.proxy_address
             , decimals := dec
             , deviation_threshold := dev
             , heartbeat := hb
             , asset_class := pyStripS r.asset_class
             , product_name := pyStripS r.product_name
             , base_asset := pyStripS r.base_asset
             , quote_asset := pyStripS r.quote_asset }
    | _, _, _ => none

/-- The symbol stored by `_load_feeds` for a (stripped) display name:
`validate_symbol(name.replace(' / ', '').replace(' ', '').upper())`
followed by the `FeedMetadata` symbol validator (`strip().upper()`
twice over). -/
def symbolFromDisplayName (n : String) : String :=
  pyUpperS (pyStripS (pyUpperS (pyStripS (normSym n))))

/-- One iteration of the `_load_feeds` row loop: `none` models the
caught `(ValueError, TypeError)` (row skipped).  The address guards
are `is_valid_address`; the re-validation inside `Address(...)` and
the pydantic validators is implied by those guards and contributes the
`lower()` of both addresses; `Decimals`/`Heartbeat` contribute the
range guards. -/
def rowToFeed (r : CsvRow) : Option FeedMetadata :=
  match validateCsvRow r with
  | none => none
  | some v =>
    if normSym v.name = "" then none
    else if ¬ is_valid_address v.contract_address then none
    else if ¬ is_valid_address v.proxy_address then none
    else if ¬ (0 ≤ v.decimals ∧ v.decimals ≤ 18) then none
    else if ¬ (0 < v.heartbeat) then none
    else if pyUpperS (pyStripS (normSym v.name)) = "" then none
    else some
      { name := v.name
      , symbol := pyUpperS (pyStripS (pyUpperS (pyStripS (normSym v.name))))
      , contractAddress := pyLowerS v.contract_address
      , proxyAddress := pyLowerS v.proxy_address
      , decimals := v.decimals.toNat
      , deviationThreshold := v.deviation_threshold
      , heartbeat := v.heartbeat.toNat
      , assetClass := v.asset_class
      , productName := v.product_name
      , baseAsset := v.base_asset
      , quoteAsset := v.quote_asset }

/-- `PriceService._load_feeds`: iterate the records, skipping invalid
rows individually. -/
def load_feeds (rows : List CsvRow) : List FeedMetadata :=
  rows.filterMap rowToFeed

/-! ## Cached prices and service state (`PriceService.__init__`) -/

/-- `models.RawPriceData`. -/
structure RawPriceData where
  answer : String
  startedAt : String
  updatedAt : String
  answeredInRound : String
deriving DecidableEq

/-- `models.PriceData`. -/
structure PriceData where
  symbol : String
  price : ℚ
  decimals : Nat
  roundId : String
  updatedAt : String
  proxyAddress : String
  raw : RawPriceData
deriving DecidableEq

/-- The mutable state of a `PriceService` instance. -/
structure ServiceState where
  feeds : List FeedMetadata
  prices : List PriceData
  last_refresh_time : Option String
  refresh_in_progress : Bool
deriving DecidableEq

/-- `PriceService.get_feed`: normalise the identifier and return the
first feed matching by symbol, by normalised name, or by raw name. -/
def get_feed (s : ServiceState) (symbol : String) : Option FeedMetadata :=
  s.feeds.find? (fun feed =>
    feed.symbol == normSym symbol ||
    normSym feed.name == normSym symbol ||
    feed.name == symbol)

/-- `PriceService.get_price`: first cached price matching the
normalised identifier. -/
def get_price (s : ServiceState) (symbol : String) : Option PriceData :=
  s.prices.find? (fun p =>
    p.symbol == normSym symbol ||
    normSym p.symbol == normSym symbol)

/-! ## Batch decode (`w3.codec.decode(['uint80','int256','uint256','uint256','uint80'], data)`)

ABI decoding of the five static `latestRoundData` return values: five
32-byte big-endian words.  Fewer than 160 bytes raises
(`InsufficientDataBytes`); a `uint80` word exceeding `2^80` raises
(non-zero padding); `int256` is two's-complement.  `none` models the
raised codec exception. -/

/-- The decoded on-chain answer for one feed (the spec's RawReading;
also the tuple shape returned by `getRoundData(...).call()`). -/
structure RawReading where
  roundId : Nat
  answer : Int
  startedAt : Nat
  updatedAt : Nat
  answeredInRound : Nat
deriving DecidableEq

/-- The 32-byte big-endian word at word-index `i` of the byte list. -/
def wordAt (data : List Nat) (i : Nat) : Nat :=
  (List.range 32).foldl (fun acc j => acc * 256 + data.getD (32 * i + j) 0) 0

/-- Two's-complement reading of a 256-bit word. -/
def toSigned256 (w : Nat) : Int :=
  if w < 2 ^ 255 then (w : Int) else (w : Int) - 2 ^ 256

/-- Decode one multicall return entry against the fixed
`latestRoundData` schema. -/
def decodeLatestRoundData (data : List Nat) : Option RawReading :=
  if data.length < 160 then none
  else
    let w0 := wordAt data 0
    let w4 := wordAt data 4
    if w0 < 2 ^ 80 ∧ w4 < 2 ^ 80 then
      some ⟨w0, toSigned256 (wordAt data 1), wordAt data 2, wordAt data 3, w4⟩
    else none

/-! ## Refresh orchestrator (`PriceService.refresh_prices`) -/

/-- A per-feed failure entry (`errors.append({"symbol": ..., "error": ...})`). -/
structure FeedError where
  symbol : String
  error : String
deriving DecidableEq

/-- The message of the per-feed codec exception (`str(e)` of the
external eth-abi error; the exact library text is not load-bearing). -/
def decodeErrorMsg : String := "could not decode latestRoundData return data"

/-- The errors `refresh_prices` raises: the re-entry guard and a
propagated transport failure of the `aggregate(...)` call. -/
inductive RefreshError where
  | conflict (msg : String)
  | transport (msg : String)
deriving DecidableEq

/-- The refresh outcome dict (`successful`, `errors`, `blockNumber`);
`duration` is wall-clock time and is outside the model. -/
structure RefreshResult where
  successful : Nat
  errors : List FeedError
  blockNumber : String
deriving DecidableEq

/-- Fold one decoded reading into a `PriceData`
(`price = float(answer) / 10 ** feed.decimals`, ISO timestamp via the
datetime oracle `isoOf`). -/
def mkPriceData (isoOf : Nat → String) (feed : FeedMetadata) (rd : RawReading) : PriceData :=
  { symbol := feed.symbol
  , price := (rd.answer : ℚ) / 10 ^ feed.decimals
  , decimals := feed.decimals
  , roundId := toString rd.roundId
  , updatedAt := isoOf rd.updatedAt
  , proxyAddress := feed.proxyAddress
  , raw := { answer := toString rd.answer
           , startedAt := toString rd.startedAt
           , updatedAt := toString rd.updatedAt
           , answeredInRound := toString rd.answeredInRound } }

/-- The per-feed `try`/`except` body of the result loop. -/
def processFeed (isoOf : Nat → String) (feed : FeedMetadata) (data : List Nat) :
    Except FeedError PriceData :=
  match decodeLatestRoundData data with
  | none => .error ⟨feed.symbol, decodeErrorMsg⟩
  | some rd => .ok (mkPriceData isoOf feed rd)

/-- The result loop of `refresh_prices`: zip feeds with the positional
return data, partition into new prices and per-feed errors. -/
def refreshStep (isoOf : Nat → String) (feeds : List FeedMetadata)
    (returnData : List (List Nat)) : List PriceData × List FeedError :=
  let results := (feeds.zip returnData).map (fun p => processFeed isoOf p.1 p.2)
  (results.filterMap Except.toOption,
   results.filterMap (fun r => match r with | .error e => some e | .ok _ => none))

/-- `PriceService.refresh_prices`.  `batch` is the outcome of the
external `multicall_contract.functions.aggregate(calls).call()`
(block number plus positionally aligned raw return bytes, or a raised
transport error); `now` is `datetime.now(tz=utc).isoformat()`.
Returns the post-state together with the outcome: the guard raises the
conflict error before touching anything, the `finally` block clears
the in-progress flag on both paths, and only the success path installs
`prices`/`last_refresh_time`. -/
def refresh_prices (isoOf : Nat → String) (now : String) (s : ServiceState)
    (batch : Except String (Nat × List (List Nat))) :
    ServiceState × Except RefreshError RefreshResult :=
  if s.refresh_in_progress then
    (s, .error (.conflict "Price refresh already in progress"))
  else
    match batch with
    | .error msg =>
        ({ s with refresh_in_progress := false }, .error (.transport msg))
    | .ok (blockNumber, returnData) =>
        let pe := refreshStep isoOf s.feeds returnData
        ({ s with prices := pe.1
                , last_refresh_time := some now
                , refresh_in_progress := false },
         .ok ⟨pe.1.length, pe.2, toString blockNumber⟩)

/-! ## Initialization (`PriceService.initialize`, `chainlink_types.ChainId`) -/

/-- The chain transport (`web3` connection) as seen by the service:
connectivity, the network identifier the endpoint reports, and the
current block number. -/
structure Transport where
  connected : Bool
  chain_id : Nat
  block_number : Nat
deriving DecidableEq

/-- The error `initialize` raises. -/
inductive InitError where
  | connectionError (msg : String)
deriving DecidableEq

/-- `ChainId.__new__`: the value must be exactly 43114. -/
def ChainId (value : Int) : Except String Int :=
  if value ≠ 43114 then
    .error "Invalid chain ID, expected 43114 for Avalanche C-Chain"
  else .ok value

/-- `PriceService.initialize`: check `w3.is_connected()`, build the
multicall contract, load the feeds, read the block number (logging
only).  The transport's reported network identifier is never
consulted. -/
def initializeService (t : Transport) (rows : List CsvRow) :
    Except InitError ServiceState :=
  if t.connected then
    .ok { feeds := load_feeds rows
        , prices := []
        , last_refresh_time := none
        , refresh_in_progress := false }
  else
    .error (.connectionError "Failed to connect to Avalanche C-Chain")

/-! ## Per-feed adapter queries (`get_round_data`, `get_feed_description`,
`get_feed_version`, `get_feed_decimals`)

Each resolves the feed via `get_feed`, issues one direct contract read
(the `call` oracle: `.error` models a raised web3 exception, swallowed
by the `except Exception: return None`), and returns the literal dict
built in the source.  Dicts are modelled as association lists so the
exact key set is part of the embedding. -/

/-- A Python dict value occurring in the adapter results. -/
inductive DVal where
  | s (v : String)
  | q (v : ℚ)
  | n (v : Nat)
deriving DecidableEq

/-- A Python dict with string keys, as a key-ordered association list. -/
abbrev PyDict := List (String × DVal)

/-- Key lookup in a modelled dict. -/
def pyLookup (d : PyDict) (k : String) : Option DVal :=
  match d.find? (fun kv => kv.1 == k) with
  | none => none
  | some kv => some kv.2

/-- `PriceService.get_round_data` (the `getRoundData(int(round_id))`
read is the `call` oracle; a malformed `round_id` raises inside the
`try` and also yields `None`). -/
def get_round_data (isoOf : Nat → String) (s : ServiceState)
    (symbol roundIdArg : String) (call : Except String RawReading) :
    Option PyDict :=
  match get_feed s symbol with
  | none => none
  | some feed =>
    match pyInt roundIdArg with
    | none => none
    | some _ =>
      match call with
      | .error _ => none
      | .ok rd => some
          [ ("roundId", .s (toString rd.roundId))
          , ("answer", .s (toString rd.answer))
          , ("startedAt", .s (toString rd.startedAt))
          , ("updatedAt", .s (toString rd.updatedAt))
          , ("answeredInRound", .s (toString rd.answeredInRound))
          , ("price", .q ((rd.answer : ℚ) / 10 ^ feed.decimals))
          , ("decimals", .n feed.decimals)
          , ("symbol", .s feed.symbol)
          , ("timestamp", .s (isoOf rd.updatedAt)) ]

/-- `PriceService.get_feed_description`. -/
def get_feed_description (s : ServiceState) (symbol : String)
    (call : Except String String) : Option PyDict :=
  match get_feed s symbol with
  | none => none
  | some feed =>
    match call with
    | .error _ => none
    | .ok desc => some
        [ ("symbol", .s feed.symbol)
        , ("description", .s desc)
        , ("proxyAddress", .s feed.proxyAddress) ]

/-- `PriceService.get_feed_version`. -/
def get_feed_version (s : ServiceState) (symbol : String)
    (call : Except String Nat) : Option PyDict :=
  match get_feed s symbol with
  | none => none
  | some feed =>
    match call with
    | .error _ => none
    | .ok ver => some
        [ ("symbol", .s feed.symbol)
        , ("version", .s (toString ver))
        , ("proxyAddress", .s feed.proxyAddress) ]

/-- `PriceService.get_feed_decimals`. -/
def get_feed_decimals (s : ServiceState) (symbol : String)
    (call : Except String Nat) : Option PyDict :=
  match get_feed s symbol with
  | none => none
  | some feed =>
    match call with
    | .error _ => none
    | .ok dec => some
        [ ("symbol", .s feed.symbol)
        , ("decimals", .n dec)
        , ("proxyAddress", .s feed.proxyAddress) ]

/-! ## Proof of Reserve (`get_proof_of_reserve_data`, `get_reserves_snapshot`) -/

/-- One `por_entry` dict (fixed key set, so modelled as a record). -/
structure PorEntry where
  symbol : String
  asset : String
  totalReserves : ℚ
  decimals : Nat
  rawReserves : String
  updatedAt : String
  roundId : String
  proxyAddress : String
  description : String
deriving DecidableEq

/-- Fold one decoded reading into a `por_entry`. -/
def mkPorEntry (isoOf : Nat → String) (feed : FeedMetadata) (rd : RawReading) : PorEntry :=
  { symbol := feed.symbol
  , asset := feed.baseAsset
  , totalReserves := (rd.answer : ℚ) / 10 ^ feed.decimals
  , decimals := feed.decimals
  , rawReserves := toString rd.answer
  , updatedAt := isoOf rd.updatedAt
  , roundId := toString rd.roundId
  , proxyAddress := feed.proxyAddress
  , description := feed.name }

/-- `PriceService._get_proof_of_reserve_feeds`. -/
def get_proof_of_reserve_feeds (s : ServiceState) : List FeedMetadata :=
  s.feeds.filter (fun f => f.productName == "Proof of Reserve")

/-- `PriceService.get_proof_of_reserve_data`: empty feed set
short-circuits; a raised `aggregate` call is swallowed into `[]`
(`except Exception: ... return []`); otherwise per-feed decode with
failures skipped (`except ...: continue`). -/
def get_proof_of_reserve_data (isoOf : Nat → String) (s : ServiceState)
    (batch : Except String (Nat × List (List Nat))) : List PorEntry :=
  let por := get_proof_of_reserve_feeds s
  if por.isEmpty then []
  else
    match batch with
    | .error _ => []
    | .ok (_, returnData) =>
        (por.zip returnData).filterMap
          (fun p => (decodeLatestRoundData p.2).map (mkPorEntry isoOf p.1))

/-- The reserves `summary` dict. -/
structure ReservesSummary where
  totalAssets : Nat
  lastUpdated : Option String
deriving DecidableEq

/-- The reserves snapshot dict. -/
structure ReservesSnapshot where
  timestamp : String
  blockNumber : String
  totalReserves : List PorEntry
  summary : ReservesSummary
deriving DecidableEq

/-- Python `max(list_of_strings)`: left fold keeping the first maximal
element under lexicographic (code-point) comparison. -/
def pyMaxStr : List String → Option String
  | [] => none
  | x :: xs => some (xs.foldl (fun a y => if a < y then y else a) x)

/-- The summary statistics of `get_reserves_snapshot`:
`total_assets = len(por_data)` and
`last_updated = max([entry["updatedAt"] ...]) if por_data else None`. -/
def reservesSummaryOf (por : List PorEntry) : ReservesSummary :=
  ⟨por.length, pyMaxStr (por.map PorEntry.updatedAt)⟩

/-- `PriceService.get_network_info` (`CHAIN_ID` is the constant
43114; block number and connectivity from the transport). -/
structure NetworkInfo where
  chainId : Nat
  blockNumber : String
  connected : Bool
deriving DecidableEq

/-- `get_network_info` as a function of the transport. -/
def get_network_info (t : Transport) : NetworkInfo :=
  ⟨43114, toString t.block_number, t.connected⟩

/-- `PriceService.get_reserves_snapshot`. -/
def get_reserves_snapshot (isoOf : Nat → String) (now : String)
    (s : ServiceState) (t : Transport)
    (batch : Except String (Nat × List (List Nat))) : ReservesSnapshot :=
  let por := get_proof_of_reserve_data isoOf s batch
  { timestamp := now
  , blockNumber := (get_network_info t).blockNumber
  , totalReserves := por
  , summary := reservesSummaryOf por }

/-! ## Concrete fixtures for witnesses and counterexamples -/

/-- A stand-in for the datetime oracle in concrete evaluations. -/
def isoTest (n : Nat) : String := toString n

/-- A well-formed 42-character address. -/
def addrA : String := "0xaaaaaaaaaaaaaaaaaaaaaaaaaaaaaaaaaaaaaaaa"

/-- A second well-formed 42-character address. -/
def addrB : String := "0xbbbbbbbbbbbbbbbbbbbbbbbbbbbbbbbbbbbbbbbb"

/-- A BTC / USD feed as `_load_feeds` would store it. -/
def btcFeed : FeedMetadata :=
  { name := "BTC / USD", symbol := "BTCUSD", contractAddress := addrA
  , proxyAddress := addrB, decimals := 8, deviationThreshold := 0
  , heartbeat := 86400, assetClass := "Crypto", productName := "Price Feed"
  , baseAsset := "BTC", quoteAsset := "USD" }

/-- A second feed used as the decode-failure position. -/
def failFeed : FeedMetadata :=
  { btcFeed with name := "ETH / USD", symbol := "ETHUSD" }

/-- A third feed for the three-position alignment test. -/
def thirdFeed : FeedMetadata :=
  { btcFeed with name := "AVAX / USD", symbol := "AVAXUSD" }

/-- A service state holding just the BTC feed, idle, no prices. -/
def btcState : ServiceState := ⟨[btcFeed], [], none, false⟩

/-- An idle, empty service state. -/
def emptyState : ServiceState := ⟨[], [], none, false⟩

/-- A state whose refresh flag is set (a cycle in flight). -/
def busyState : ServiceState := ⟨[btcFeed], [], none, true⟩

/-- A cached BTC price entry from some earlier refresh. -/
def btcPrice : PriceData :=
  { symbol := "BTCUSD", price := 2500, decimals := 8, roundId := "1"
  , updatedAt := "2024-01-01T00:00:00+00:00", proxyAddress := addrB
  , raw := ⟨"250000000000", "0", "0", "1"⟩ }

/-- An idle state with a published snapshot (one cached price). -/
def btcPriceState : ServiceState :=
  ⟨[btcFeed], [btcPrice], some "2024-01-01T00:00:01+00:00", false⟩

/-- 160 zero bytes: a well-formed all-zero `latestRoundData` payload. -/
def zeroBytes : List Nat := List.replicate 160 0

/-- A 160-byte payload whose `answer` word is 250000000000
(`0x3A35294400`) and all other words zero. -/
def answerBytes : List Nat :=
  List.replicate 59 0 ++ [58, 53, 41, 68, 0] ++ List.replicate 96 0

/-! ## Helper lemmas -/

/-- `find?` only depends on the pointwise behaviour of the predicate. -/
theorem findCongr {α : Type} (p q : α → Bool) (h : ∀ a, p a = q a) :
    (l : List α) → l.find? p = l.find? q
  | [] => rfl
  | a :: l => by
      simp only [List.find?]
      rw [h a]
      cases hq : q a
      · exact findCongr p q h l
      · rfl

/-- `find?` succeeds when some element satisfies the predicate. -/
theorem findIsSome {α : Type} (p : α → Bool) :
    (l : List α) → (∃ x ∈ l, p x = true) → (l.find? p).isSome = true
  | [], h => by simp at h
  | a :: l, h => by
      simp only [List.find?]
      cases hp : p a
      · apply findIsSome p l
        obtain ⟨x, hx, hpx⟩ := h
        cases hx with
        | head => rw [hp] at hpx; cases hpx
        | tail _ hmem => exact ⟨x, hmem, hpx⟩
      · rfl

/-- The base element bounds the Python-max fold from below. -/
theorem le_foldl_pymax (x : String) (xs : List String) :
    x ≤ xs.foldl (fun a y => if a < y then y else a) x := by
  induction xs generalizing x with
  | nil => exact le_refl x
  | cons y ys ih =>
      simp only [List.foldl_cons]
      by_cases h : x < y
      · simp only [if_pos h]
        exact le_trans (le_of_lt h) (ih y)
      · simp only [if_neg h]
        exact ih x

/-- The Python-max fold returns a member of the list. -/
theorem foldl_pymax_mem (x : String) (xs : List String) :
    xs.foldl (fun a y => if a < y then y else a) x ∈ x :: xs := by
  induction xs generalizing x with
  | nil => simp
  | cons y ys ih =>
      simp only [List.foldl_cons]
      by_cases h : x < y
      · simp only [if_pos h]
        have := ih y
        simp only [List.mem_cons] at this ⊢
        tauto
      · simp only [if_neg h]
        have := ih x
        simp only [List.mem_cons] at this ⊢
        tauto

/-- The Python-max fold is an upper bound of base and list. -/
theorem foldl_pymax_le (x : String) (xs : List String) :
    ∀ u ∈ x :: xs, u ≤ xs.foldl (fun a y => if a < y then y else a) x := by
  induction xs generalizing x with
  | nil =>
      intro u hu
      simp at hu
      simp [hu]
  | cons y ys ih =>
      intro u hu
      simp only [List.mem_cons] at hu
      simp only [List.foldl_cons]
      by_cases h : x < y
      · simp only [if_pos h]
        rcases hu with h1 | h1 | h1
        · subst h1
          exact le_trans (le_of_lt h) (le_foldl_pymax y ys)
        · subst h1
          exact ih u u (by simp)
        · exact ih y u (by simp [h1])
      · simp only [if_neg h]
        rcases hu with h1 | h1 | h1
        · subst h1
          exact ih u u (by simp)
        · subst h1
          exact le_trans (le_of_not_lt h) (le_foldl_pymax x ys)
        · exact ih x u (by simp [h1])

/-! ## Claim theorems -/

/-- C1: a `refresh_prices` call made while the in-progress flag is set
fails immediately with the conflict error ("refresh already in
progress") and leaves the whole state — flag, cached price list, and
last-refresh timestamp — unchanged. -/
theorem refresh_conflict_rejected (isoOf : Nat → String) (now : String)
    (s : ServiceState) (batch : Except String (Nat × List (List Nat)))
    (h : s.refresh_in_progress = true) :
    refresh_prices isoOf now s batch
      = (s, .error (.conflict "Price refresh already in progress")) := by
  simp [refresh_prices, h]

/-- Witness for C1 at a concrete in-flight state. -/
theorem refresh_conflict_rejected_witness :
    refresh_prices isoTest "t" busyState (.ok (1, []))
      = (busyState, .error (.conflict "Price refresh already in progress")) :=
  refresh_conflict_rejected isoTest "t" busyState (.ok (1, [])) rfl

/-- C2: when the batched transport call raises, `refresh_prices`
propagates that error, ends with the flag back at idle, and leaves the
previously published snapshot (cached prices and last-refresh
timestamp) unchanged, so any lookup still returns the old entry. -/
theorem refresh_transport_error_preserves (isoOf : Nat → String)
    (now msg : String) (s : ServiceState)
    (h : s.refresh_in_progress = false) :
    refresh_prices isoOf now s (.error msg) = (s, .error (.transport msg)) ∧
    ∀ sym, get_price (refresh_prices isoOf now s (.error msg)).1 sym = get_price s sym := by
  have hs : ({ s with refresh_in_progress := false } : ServiceState) = s := by
    cases s
    simp_all
  refine ⟨?_, ?_⟩
  · simp [refresh_prices, h, hs]
  · intro sym
    simp [refresh_prices, h, hs]

/-- Witness for C2: concrete idle state with a cached BTC price. -/
theorem refresh_transport_error_preserves_witness :
    refresh_prices isoTest "t" btcPriceState (.error "connection reset")
      = (btcPriceState, .error (.transport "connection reset")) ∧
    get_price (refresh_prices isoTest "t" btcPriceState (.error "connection reset")).1 "BTCUSD"
      = get_price btcPriceState "BTCUSD" := by
  have h := refresh_transport_error_preserves isoTest "t" "connection reset" btcPriceState rfl
  exact ⟨h.1, h.2 "BTCUSD"⟩

/-- C10: a raised Proof-of-Reserve multicall is swallowed:
`get_proof_of_reserve_data` returns the empty list and
`get_reserves_snapshot` returns a normal snapshot with an empty
reserves list, `totalAssets = 0`, `lastUpdated = none`, reporting no
error. -/
theorem por_transport_swallowed (isoOf : Nat → String) (now e : String)
    (s : ServiceState) (t : Transport) :
    get_proof_of_reserve_data isoOf s (.error e) = [] ∧
    get_reserves_snapshot isoOf now s t (.error e)
      = ⟨now, toString t.block_number, [], ⟨0, none⟩⟩ := by
  have h1 : get_proof_of_reserve_data isoOf s (.error e) = [] := by
    unfold get_proof_of_reserve_data
    split
    · simp
    · rename_i heq
      simp at heq
  refine ⟨h1, ?_⟩
  simp [get_reserves_snapshot, h1, reservesSummaryOf, pyMaxStr, get_network_info]

/-- C7 counterexample: a connected transport reporting network
identifier 1 (≠ 43114) initializes successfully — the claim that
initialization does not complete against such a transport is false of
the code, which never consults the reported identifier. -/
theorem init_ignores_chain_id_cex :
    (Transport.mk true 1 100).chain_id ≠ 43114 ∧
    initializeService ⟨true, 1, 100⟩ [] = .ok emptyState := by
  constructor
  · decide
  · rfl

/-- C7 (amended): constructing the service's chain identifier from any
integer other than 43114 fails with an error, but `initialize` checks
only connectivity and never consults the transport's reported network
identifier: it completes successfully against any connected transport
regardless of that identifier, and fails only when disconnected. -/
theorem chain_id_and_initialization (v : Int) (t : Transport) (rows : List CsvRow) :
    (v ≠ 43114 → ChainId v = .error "Invalid chain ID, expected 43114 for Avalanche C-Chain") ∧
    (ChainId 43114 = .ok 43114) ∧
    (t.connected = true →
      initializeService t rows = .ok ⟨load_feeds rows, [], none, false⟩) ∧
    (t.connected = false →
      initializeService t rows
        = .error (.connectionError "Failed to connect to Avalanche C-Chain")) := by
  refine ⟨?_, rfl, ?_, ?_⟩
  · intro hv
    simp [ChainId, hv]
  · intro hc
    simp [initializeService, hc]
  · intro hc
    simp [initializeService, hc]

/-- Witness for C7's amended theorem at concrete inputs. -/
theorem chain_id_and_initialization_witness :
    ChainId 1 = .error "Invalid chain ID, expected 43114 for Avalanche C-Chain" ∧
    initializeService ⟨true, 43113, 7⟩ [] = .ok ⟨[], [], none, false⟩ ∧
    initializeService ⟨false, 43114, 7⟩ []
      = .error (.connectionError "Failed to connect to Avalanche C-Chain") := by
  refine ⟨?_, ?_, ?_⟩
  · exact (chain_id_and_initialization 1 ⟨true, 43113, 7⟩ []).1 (by decide)
  · exact (chain_id_and_initialization 1 ⟨true, 43113, 7⟩ []).2.2.1 rfl
  · exact (chain_id_and_initialization 1 ⟨false, 43114, 7⟩ []).2.2.2 rfl

/-- C3: batch decoding is positional and per-feed failures are
isolated.  For feeds `[A, B, C]` and raw results aligned by position
with the middle entry failing to decode, the refresh produces exactly
the entries for A and C (each decoded from its own position), records
B as a per-feed failure (symbol plus message), and completes the cycle
without aborting. -/
theorem refresh_positional_isolation (isoOf : Nat → String) (now : String)
    (s : ServiceState) (A B C : FeedMetadata) (ra rb rc : List Nat)
    (da dc : RawReading) (bn : Nat)
    (hfeeds : s.feeds = [A, B, C])
    (hflag : s.refresh_in_progress = false)
    (hA : decodeLatestRoundData ra = some da)
    (hB : decodeLatestRoundData rb = none)
    (hC : decodeLatestRoundData rc = some dc) :
    refresh_prices isoOf now s (.ok (bn, [ra, rb, rc]))
      = ({ s with prices := [mkPriceData isoOf A da, mkPriceData isoOf C dc], last_refresh_time := some now, refresh_in_progress := false },
         .ok ⟨2, [⟨B.symbol, decodeErrorMsg⟩], toString bn⟩) := by
  simp [refresh_prices, hflag, hfeeds, refreshStep, processFeed, hA, hB, hC,
        Except.toOption]

set_option maxRecDepth 40000 in
/-- Witness for C3: three concrete feeds, the middle payload empty
(undecodable), the outer two all-zero valid payloads. -/
theorem refresh_positional_isolation_witness :
    refresh_prices isoTest "t" ⟨[btcFeed, failFeed, thirdFeed], [], none, false⟩
        (.ok (99, [zeroBytes, [], zeroBytes]))
      = (⟨[btcFeed, failFeed, thirdFeed],
          [mkPriceData isoTest btcFeed ⟨0, 0, 0, 0, 0⟩,
           mkPriceData isoTest thirdFeed ⟨0, 0, 0, 0, 0⟩],
          some "t", false⟩,
         .ok ⟨2, [⟨failFeed.symbol, decodeErrorMsg⟩], toString 99⟩) :=
  refresh_positional_isolation isoTest "t"
    ⟨[btcFeed, failFeed, thirdFeed], [], none, false⟩
    btcFeed failFeed thirdFeed zeroBytes [] zeroBytes
    ⟨0, 0, 0, 0, 0⟩ ⟨0, 0, 0, 0, 0⟩ 99 rfl rfl (by decide) (by decide) (by decide)

/-- C4: after a successful refresh over `[F1, F2]` where F1 decodes to
answer 250000000000 with `F1.decimals = 8` and F2 fails to decode, the
published snapshot holds exactly one price entry — for F1, with price
`250000000000 / 10^8 = 2500` — plus the completion timestamp, and the
outcome carries the batch response's block number and a failure list
containing F2. -/
theorem refresh_success_snapshot (isoOf : Nat → String) (now : String)
    (s : ServiceState) (F1 F2 : FeedMetadata) (b1 b2 : List Nat) (bn : Nat)
    (r sa ua ar : Nat)
    (hfeeds : s.feeds = [F1, F2])
    (hflag : s.refresh_in_progress = false)
    (hdec : F1.decimals = 8)
    (h1 : decodeLatestRoundData b1 = some ⟨r, 250000000000, sa, ua, ar⟩)
    (h2 : decodeLatestRoundData b2 = none) :
    refresh_prices isoOf now s (.ok (bn, [b1, b2]))
      = ({ s with prices := [mkPriceData isoOf F1 ⟨r, 250000000000, sa, ua, ar⟩], last_refresh_time := some now, refresh_in_progress := false },
         .ok ⟨1, [⟨F2.symbol, decodeErrorMsg⟩], toString bn⟩) ∧
    (mkPriceData isoOf F1 ⟨r, 250000000000, sa, ua, ar⟩).symbol = F1.symbol ∧
    (mkPriceData isoOf F1 ⟨r, 250000000000, sa, ua, ar⟩).price = 2500 := by
  refine ⟨?_, rfl, ?_⟩
  · simp [refresh_prices, hflag, hfeeds, refreshStep, processFeed, h1, h2,
          Except.toOption]
  · simp [mkPriceData, hdec]
    norm_num

set_option maxRecDepth 40000 in
/-- Witness for C4: concrete payload whose answer word is
250000000000, against the 8-decimal BTC feed, with the second payload
empty. -/
theorem refresh_success_snapshot_witness :
    refresh_prices isoTest "t" ⟨[btcFeed, failFeed], [], none, false⟩
        (.ok (123, [answerBytes, []]))
      = (⟨[btcFeed, failFeed],
          [mkPriceData isoTest btcFeed ⟨0, 250000000000, 0, 0, 0⟩],
          some "t", false⟩,
         .ok ⟨1, [⟨failFeed.symbol, decodeErrorMsg⟩], toString 123⟩) ∧
    (mkPriceData isoTest btcFeed ⟨0, 250000000000, 0, 0, 0⟩).symbol = btcFeed.symbol ∧
    (mkPriceData isoTest btcFeed ⟨0, 250000000000, 0, 0, 0⟩).price = 2500 :=
  refresh_success_snapshot isoTest "t" ⟨[btcFeed, failFeed], [], none, false⟩
    btcFeed failFeed answerBytes [] 123 0 0 0 0 rfl rfl rfl (by decide) (by decide)

/-- The raw-display-name branch of `get_feed` is absorbed by the
normalised-name branch: a feed whose raw name equals the identifier
also matches on the normalised name, so lookup depends on the
identifier only through its normalisation (plus which feeds exist). -/
theorem get_feed_eq_core (st : ServiceState) (i : String) :
    get_feed st i
      = st.feeds.find? (fun f => f.symbol == normSym i || normSym f.name == normSym i) := by
  unfold get_feed
  apply findCongr
  intro f
  by_cases h : f.name = i
  · have h2 : normSym f.name = normSym i := by rw [h]
    simp [h, h2]
  · have h3 : (f.name == i) = false := by simp [h]
    simp [h3]

set_option maxRecDepth 40000 in
/-- C5 counterexample: a registry holding the feed with canonical
symbol "BTCUSD" and display name "BTC / USD".  `lookup("btc/usd")`
normalises to "BTC/USD" — the unpadded slash survives `replace(' / ',
'')` — and resolves to nothing, while the other two identifiers of the
claim resolve to the feed, so the three lookups do not all agree. -/
theorem lookup_unpadded_slash_cex :
    btcFeed.symbol = "BTCUSD" ∧
    get_feed btcState "btc/usd" = none ∧
    get_feed btcState "BTCUSD" = some btcFeed ∧
    get_feed btcState " BTC / USD " = some btcFeed := by
  decide

/-- C5 (amended): lookup is idempotent and case-insensitive across the
identifiers the normalisation actually equates: for every registry,
`lookup("btcusd")` and `lookup(" BTC / USD ")` coincide with
`lookup("BTCUSD")`, and the common result is a feed whenever some feed
carries canonical symbol "BTCUSD".  An identifier with an unpadded
slash, such as "btc/usd", normalises differently ("BTC/USD") and is
not equated with these. -/
theorem lookup_normalized_agree (st : ServiceState)
    (h : ∃ f ∈ st.feeds, f.symbol = "BTCUSD") :
    get_feed st "btcusd" = get_feed st "BTCUSD" ∧
    get_feed st " BTC / USD " = get_feed st "BTCUSD" ∧
    (get_feed st "BTCUSD").isSome = true := by
  have e1 : normSym "btcusd" = normSym "BTCUSD" := by decide
  have e2 : normSym " BTC / USD " = normSym "BTCUSD" := by decide
  have e3 : normSym "BTCUSD" = "BTCUSD" := by decide
  refine ⟨?_, ?_, ?_⟩
  · rw [get_feed_eq_core, get_feed_eq_core, e1]
  · rw [get_feed_eq_core, get_feed_eq_core, e2]
  · rw [get_feed_eq_core]
    apply findIsSome
    obtain ⟨f, hf, hs⟩ := h
    refine ⟨f, hf, ?_⟩
    simp [hs, e3]

set_option maxRecDepth 40000 in
/-- Witness for C5's amended theorem at the concrete registry. -/
theorem lookup_normalized_agree_witness :
    get_feed btcState "btcusd" = get_feed btcState "BTCUSD" ∧
    get_feed btcState " BTC / USD " = get_feed btcState "BTCUSD" ∧
    (get_feed btcState "BTCUSD").isSome = true :=
  lookup_normalized_agree btcState ⟨btcFeed, List.mem_cons_self btcFeed [], rfl⟩

/-- A metadata row that loads cleanly (it is `btcFeed`'s row). -/
def goodRow : CsvRow :=
  { name := "BTC / USD", contract_address := addrA, proxy_address := addrB
  , decimals := "8", deviation_threshold := "0", heartbeat := "86400"
  , asset_class := "Crypto", product_name := "Price Feed"
  , base_asset := "BTC", quote_asset := "USD" }

/-- A row with every field present and well-formed addresses whose
`decimals` value 19 is out of the validated 0–18 range. -/
def badDecimalsRow : CsvRow :=
  { goodRow with name := "ETH / USD", decimals := "19" }

/-- If `_validate_csv_row` succeeds, the string fields of the
validated row are the stripped input fields. -/
theorem validateCsvRow_fields (r : CsvRow) (v : ValidatedRow)
    (hv : validateCsvRow r = some v) :
    v.name = pyStripS r.name ∧
    v.contract_address = pyStripS r.contract_address ∧
    v.proxy_address = pyStripS r.proxy_address := by
  unfold validateCsvRow at hv
  split at hv
  · cases hv
  · split at hv
    · injection hv with hv
      subst hv
      exact ⟨rfl, rfl, rfl⟩
    · cases hv

set_option maxRecDepth 40000 in
/-- C6 counterexample: a row with every required field present and
both addresses well-formed is nevertheless excluded from the load (its
`decimals` value 19 fails the 0–18 range validation), so the claim
that exactly the rows missing a required field or carrying a malformed
address are excluded "while all other rows still load" is false of the
code: exclusion is strictly broader. -/
theorem load_excludes_beyond_claim_cex :
    hasMissingField badDecimalsRow = false ∧
    is_valid_address (pyStripS badDecimalsRow.contract_address) = true ∧
    is_valid_address (pyStripS badDecimalsRow.proxy_address) = true ∧
    (load_feeds [goodRow, badDecimalsRow]).map FeedMetadata.symbol = ["BTCUSD"] := by
  decide

/-- C6 (amended): every accepted row yields a descriptor whose symbol
is derived from the stripped display name by removing the space-padded
" / " separator and the remaining spaces then upper-casing, and whose
addresses are the stripped inputs lower-cased; every row missing a
required field or carrying a malformed (stripped) address is excluded;
and any excluded row — excluded for any validation failure, including
unparsable or out-of-range numeric fields — is skipped individually,
leaving the loads of all other rows intact. -/
theorem load_feeds_validation (r : CsvRow) (f : FeedMetadata)
    (pre post : List CsvRow) :
    (rowToFeed r = some f →
        f.symbol = symbolFromDisplayName (pyStripS r.name) ∧
        f.contractAddress = pyLowerS (pyStripS r.contract_address) ∧
        f.proxyAddress = pyLowerS (pyStripS r.proxy_address)) ∧
    (hasMissingField r = true → rowToFeed r = none) ∧
    (is_valid_address (pyStripS r.contract_address) = false → rowToFeed r = none) ∧
    (is_valid_address (pyStripS r.proxy_address) = false → rowToFeed r = none) ∧
    (rowToFeed r = none →
        load_feeds (pre ++ r :: post) = load_feeds pre ++ load_feeds post) := by
  refine ⟨?_, ?_, ?_, ?_, ?_⟩
  · intro h
    unfold rowToFeed at h
    split at h
    · cases h
    · rename_i v hv
      obtain ⟨hn, hc, hp⟩ := validateCsvRow_fields r v hv
      split at h
      · cases h
      · split at h
        · cases h
        · split at h
          · cases h
          · split at h
            · cases h
            · split at h
              · cases h
              · split at h
                · cases h
                · injection h with h
                  subst h
                  refine ⟨?_, ?_, ?_⟩
                  · rw [symbolFromDisplayName, hn]
                  · rw [hc]
                  · rw [hp]
  · intro h
    simp [rowToFeed, validateCsvRow, h]
  · intro h
    unfold rowToFeed
    split
    · rfl
    · rename_i v hv
      obtain ⟨hn, hc, hp⟩ := validateCsvRow_fields r v hv
      rw [hc, h]
      simp
  · intro h
    unfold rowToFeed
    split
    · rfl
    · rename_i v hv
      obtain ⟨hn, hc, hp⟩ := validateCsvRow_fields r v hv
      rw [hp, h]
      simp
  · intro h
    simp [load_feeds, List.filterMap_append, List.filterMap_cons, h]

set_option maxRecDepth 40000 in
/-- Witness for C6's amended theorem: the out-of-range row is skipped
while the good row still loads, and a row with a missing name is
rejected. -/
theorem load_feeds_validation_witness :
    load_feeds [goodRow, badDecimalsRow] = load_feeds [goodRow] ++ load_feeds [] ∧
    rowToFeed { goodRow with name := "" } = none := by
  constructor
  · exact (load_feeds_validation badDecimalsRow btcFeed [goodRow] []).2.2.2.2 (by decide)
  · exact (load_feeds_validation { goodRow with name := "" } btcFeed [] []).2.1 (by decide)

/-- A concrete Proof-of-Reserve entry. -/
def porA : PorEntry :=
  ⟨"BTCPOR", "BTC", 1, 8, "100000000", "2024-01-02T00:00:00+00:00", "1", addrA, "BTC PoR"⟩

/-- A second, later-updated Proof-of-Reserve entry. -/
def porB : PorEntry :=
  ⟨"ETHPOR", "ETH", 2, 8, "200000000", "2024-01-03T00:00:00+00:00", "2", addrB, "ETH PoR"⟩

/-- C8: for every list of decoded Proof-of-Reserve entries, the
summary reports `totalAssets` equal to the number of entries and
`lastUpdated` equal to the greatest of the entries' `updatedAt`
strings under lexical (code-point) comparison — absent when no entry
decoded — and the reserves snapshot's summary is exactly this summary
of its decoded entries. -/
theorem reserves_summary_spec (por : List PorEntry) (isoOf : Nat → String)
    (now : String) (st : ServiceState) (t : Transport)
    (batch : Except String (Nat × List (List Nat))) :
    (reservesSummaryOf por).totalAssets = por.length ∧
    (por = [] → (reservesSummaryOf por).lastUpdated = none) ∧
    (por ≠ [] → ∃ m, (reservesSummaryOf por).lastUpdated = some m ∧
        m ∈ por.map PorEntry.updatedAt ∧
        ∀ u ∈ por.map PorEntry.updatedAt, u ≤ m) ∧
    (get_reserves_snapshot isoOf now st t batch).summary
      = reservesSummaryOf (get_proof_of_reserve_data isoOf st batch) := by
  refine ⟨rfl, ?_, ?_, rfl⟩
  · intro h
    subst h
    rfl
  · intro h
    cases por with
    | nil => exact absurd rfl h
    | cons p ps =>
        refine ⟨(ps.map PorEntry.updatedAt).foldl (fun a y => if a < y then y else a)
                  p.updatedAt, rfl, ?_, ?_⟩
        · have hm := foldl_pymax_mem p.updatedAt (ps.map PorEntry.updatedAt)
          simpa using hm
        · intro u hu
          apply foldl_pymax_le
          simpa using hu

/-- Witness for C8 on a concrete two-entry list. -/
theorem reserves_summary_spec_witness :
    (reservesSummaryOf [porA, porB]).totalAssets = 2 ∧
    ∃ m, (reservesSummaryOf [porA, porB]).lastUpdated = some m ∧
        m ∈ [porA, porB].map PorEntry.updatedAt ∧
        ∀ u ∈ [porA, porB].map PorEntry.updatedAt, u ≤ m := by
  have h := reserves_summary_spec [porA, porB] isoTest "t" emptyState
    ⟨true, 43114, 1⟩ (.error "x")
  exact ⟨h.1, h.2.2.1 (by simp)⟩

set_option maxRecDepth 40000 in
/-- C9 counterexample: a successful `get_round_data` result carries
the resolved feed's canonical symbol but contains no "proxyAddress"
key at all, contradicting the claim that every adapter's success
result carries the resolved feed's proxy address. -/
theorem round_data_no_proxy_cex :
    (get_round_data isoTest btcState "BTCUSD" "7" (.ok ⟨7, 100, 10, 20, 7⟩)).isSome = true ∧
    pyLookup ((get_round_data isoTest btcState "BTCUSD" "7"
        (.ok ⟨7, 100, 10, 20, 7⟩)).getD []) "proxyAddress" = none ∧
    pyLookup ((get_round_data isoTest btcState "BTCUSD" "7"
        (.ok ⟨7, 100, 10, 20, 7⟩)).getD []) "symbol" = some (.s "BTCUSD") := by
  decide

/-- C9 (amended): each per-feed adapter query returns `none` when the
symbol does not resolve to a feed and when the underlying contract
read raises; on success, `describe`/`version`/`decimalsOf` results
carry the resolved feed's canonical symbol and proxy address, while
`roundData`'s result carries the canonical symbol but has no
proxy-address key. -/
theorem adapters_not_found_and_fields (isoOf : Nat → String)
    (st : ServiceState) (sym ridArg e desc : String) (rd : RawReading)
    (ver dec : Nat) :
    (get_feed st sym = none →
        get_round_data isoOf st sym ridArg (.ok rd) = none ∧
        get_feed_description st sym (.ok desc) = none ∧
        get_feed_version st sym (.ok ver) = none ∧
        get_feed_decimals st sym (.ok dec) = none) ∧
    (get_round_data isoOf st sym ridArg (.error e) = none ∧
     get_feed_description st sym (.error e) = none ∧
     get_feed_version st sym (.error e) = none ∧
     get_feed_decimals st sym (.error e) = none) ∧
    (∀ feed, get_feed st sym = some feed →
        pyLookup ((get_feed_description st sym (.ok desc)).getD []) "symbol"
          = some (.s feed.symbol) ∧
        pyLookup ((get_feed_description st sym (.ok desc)).getD []) "proxyAddress"
          = some (.s feed.proxyAddress) ∧
        pyLookup ((get_feed_version st sym (.ok ver)).getD []) "symbol"
          = some (.s feed.symbol) ∧
        pyLookup ((get_feed_version st sym (.ok ver)).getD []) "proxyAddress"
          = some (.s feed.proxyAddress) ∧
        pyLookup ((get_feed_decimals st sym (.ok dec)).getD []) "symbol"
          = some (.s feed.symbol) ∧
        pyLookup ((get_feed_decimals st sym (.ok dec)).getD []) "proxyAddress"
          = some (.s feed.proxyAddress) ∧
        ((pyInt ridArg).isSome = true →
          pyLookup ((get_round_data isoOf st sym ridArg (.ok rd)).getD []) "symbol"
            = some (.s feed.symbol) ∧
          pyLookup ((get_round_data isoOf st sym ridArg (.ok rd)).getD []) "proxyAddress"
            = none)) := by
  have kds : ("symbol" == "proxyAddress") = false := by decide
  have kdd : ("description" == "proxyAddress") = false := by decide
  have kvv : ("version" == "proxyAddress") = false := by decide
  have kdc : ("decimals" == "proxyAddress") = false := by decide
  refine ⟨?_, ?_, ?_⟩
  · intro h
    refine ⟨?_, ?_, ?_, ?_⟩ <;>
      simp [get_round_data, get_feed_description, get_feed_version,
            get_feed_decimals, h]
  · refine ⟨?_, ?_, ?_, ?_⟩
    · cases hf : get_feed st sym
      · simp [get_round_data, hf]
      · cases hr : pyInt ridArg
        · simp [get_round_data, hf, hr]
        · simp [get_round_data, hf, hr]
    · cases hf : get_feed st sym <;> simp [get_feed_description, hf]
    · cases hf : get_feed st sym <;> simp [get_feed_version, hf]
    · cases hf : get_feed st sym <;> simp [get_feed_decimals, hf]
  · intro feed hf
    refine ⟨?_, ?_, ?_, ?_, ?_, ?_, ?_⟩
    · simp [get_feed_description, hf, pyLookup, List.find?]
    · simp [get_feed_description, hf, pyLookup, List.find?, kds, kdd]
    · simp [get_feed_version, hf, pyLookup, List.find?]
    · simp [get_feed_version, hf, pyLookup, List.find?, kds, kvv]
    · simp [get_feed_decimals, hf, pyLookup, List.find?]
    · simp [get_feed_decimals, hf, pyLookup, List.find?, kds, kdc]
    · intro hr
      obtain ⟨i, hi⟩ := Option.isSome_iff_exists.mp hr
      constructor
      · simp [get_round_data, hf, hi, pyLookup, List.find?]
      · simp [get_round_data, hf, hi, pyLookup, List.find?]

set_option maxRecDepth 40000 in
/-- Witness for C9's amended theorem: unknown symbol, raised read, and
successful description fields at concrete inputs. -/
theorem adapters_not_found_and_fields_witness :
    get_feed_description btcState "NOPE" (.ok "d") = none ∧
    get_feed_version btcState "BTCUSD" (.error "boom") = none ∧
    pyLookup ((get_feed_description btcState "BTCUSD" (.ok "BTC / USD")).getD [])
      "proxyAddress" = some (.s btcFeed.proxyAddress) := by
  have h1 := adapters_not_found_and_fields isoTest btcState "NOPE" "1" "boom" "d"
    ⟨1, 1, 1, 1, 1⟩ 4 8
  have h2 := adapters_not_found_and_fields isoTest btcState "BTCUSD" "1" "boom" "BTC / USD"
    ⟨1, 1, 1, 1, 1⟩ 4 8
  refine ⟨(h1.1 (by decide)).2.1, h2.2.1.2.2.1, ?_⟩
  exact (h2.2.2 btcFeed (by decide)).2.1
